import Mathlib

/-!
Verification of the VLM-response JSON recovery engine of this repository
(`src/robust_json_parser.py` and `src/json_repair_utils.py`).

The Python code is shallowly embedded as executable Lean functions over
`List Char`.  Every `re.sub` / `re.findall` call in the source uses one fixed
regular expression; each such call is embedded as the concrete string
transformation that this particular pattern performs under Python `re`
semantics (leftmost, non-overlapping scanning; greedy/lazy resolution worked
out per pattern and recorded in the comment next to each definition).
`json.loads` is embedded as a recursive-descent parser `json_loads` following
the grammar accepted by Python's `json` module (strict strings, the four JSON
whitespace characters, `NaN`/`Infinity`/`-Infinity` literals, full-input
consumption).  Numeric literals are kept as their lexemes: no claim below
depends on numeric value semantics.
-/

/-- JSON values as produced by the embedded `json_loads` and by the
dictionary literals that the Python fallback paths construct.  Numbers keep
their source lexeme. -/
inductive Json where
  | null : Json
  | bool : Bool → Json
  | num : String → Json
  | str : String → Json
  | arr : List Json → Json
  | obj : List (String × Json) → Json

/-- The four whitespace characters skipped by Python's `json` scanner. -/
def isWsJ (c : Char) : Bool := c = ' ' || c = '\t' || c = '\n' || c = '\r'

/-- `p` is a prefix of `s` (character-wise). -/
def startsWith : List Char → List Char → Bool
  | [], _ => true
  | _ :: _, [] => false
  | p :: ps, c :: cs => p = c && startsWith ps cs

/-- Decoder for one JSON string body (after the opening quote), per Python's
strict scanner: raw control characters below 0x20 are rejected, the escapes
`\" \\ \/ \b \f \n \r \t \uXXXX` are decoded.  Returns the decoded content
and the input remaining after the closing quote. -/
def parseJStr : List Char → Option (List Char × List Char)
  | [] => none
  | c :: t =>
    if c = '"' then some ([], t)
    else if c = '\\' then
      match t with
      | [] => none
      | e :: u =>
        if e = '"' then (parseJStr u).map (fun p => ('"' :: p.1, p.2))
        else if e = '\\' then (parseJStr u).map (fun p => ('\\' :: p.1, p.2))
        else if e = '/' then (parseJStr u).map (fun p => ('/' :: p.1, p.2))
        else if e = 'b' then (parseJStr u).map (fun p => ('\x08' :: p.1, p.2))
        else if e = 'f' then (parseJStr u).map (fun p => ('\x0c' :: p.1, p.2))
        else if e = 'n' then (parseJStr u).map (fun p => ('\n' :: p.1, p.2))
        else if e = 'r' then (parseJStr u).map (fun p => ('\r' :: p.1, p.2))
        else if e = 't' then (parseJStr u).map (fun p => ('\t' :: p.1, p.2))
        else if e = 'u' then
          let isHex : Char → Bool := fun c =>
            c.isDigit || ('a' ≤ c && c ≤ 'f') || ('A' ≤ c && c ≤ 'F')
          match u with
          | h1 :: h2 :: h3 :: h4 :: v =>
            match isHex h1 && isHex h2 && isHex h3 && isHex h4 with
            | true =>
              let hv : Char → Nat := fun c =>
                if c.isDigit then c.toNat - 48
                else if 'a' ≤ c then c.toNat - 87 else c.toNat - 55
              let n := ((hv h1 * 16 + hv h2) * 16 + hv h3) * 16 + hv h4
              (parseJStr v).map (fun p => (Char.ofNat n :: p.1, p.2))
            | false => none
          | _ => none
        else none
    else if c.toNat < 32 then none
    else (parseJStr t).map (fun p => (c :: p.1, p.2))

/-- Fractional part `(\.\d+)?` of Python's JSON number regex. -/
def parseFrac (s : List Char) : List Char × List Char :=
  match s with
  | '.' :: t =>
    let ds := t.takeWhile Char.isDigit
    if ds.isEmpty then ([], s) else ('.' :: ds, t.drop ds.length)
  | _ => ([], s)

/-- Exponent part `([eE][-+]?\d+)?` of Python's JSON number regex. -/
def parseExp (s : List Char) : List Char × List Char :=
  match s with
  | e :: t =>
    if e = 'e' || e = 'E' then
      let sg := match t with
        | c :: _ => if c = '+' || c = '-' then [c] else []
        | [] => []
      let t2 := t.drop sg.length
      let ds := t2.takeWhile Char.isDigit
      if ds.isEmpty then ([], s) else (e :: (sg ++ ds), t2.drop ds.length)
    else ([], s)
  | [] => ([], s)

/-- Python's JSON number regex `(-?(?:0|[1-9]\d*))(\.\d+)?([eE][-+]?\d+)?`,
matched at the start of the input; returns the lexeme and the rest. -/
def parseNumber (s : List Char) : Option (List Char × List Char) :=
  let sgn : List Char := match s with
    | '-' :: _ => ['-']
    | _ => []
  let s1 := s.drop sgn.length
  match s1 with
  | [] => none
  | c :: t =>
    if c = '0' then
      let (f, r1) := parseFrac t
      let (e, r2) := parseExp r1
      some (sgn ++ ['0'] ++ f ++ e, r2)
    else if c.isDigit then
      let ds := t.takeWhile Char.isDigit
      let (f, r1) := parseFrac (t.drop ds.length)
      let (e, r2) := parseExp r1
      some (sgn ++ (c :: ds) ++ f ++ e, r2)
    else none

mutual

/-- One JSON value, fuel-indexed; mirrors Python's `py_scanstring` /
`JSONObject` / `JSONArray` scanner including its whitespace handling and
the `NaN` / `Infinity` / `-Infinity` constants. -/
def parseValue : Nat → List Char → Option (Json × List Char)
  | 0, _ => none
  | fuel + 1, s0 =>
    let s := s0.dropWhile isWsJ
    if startsWith "true".toList s then some (Json.bool true, s.drop 4)
    else if startsWith "false".toList s then some (Json.bool false, s.drop 5)
    else if startsWith "null".toList s then some (Json.null, s.drop 4)
    else if startsWith "NaN".toList s then some (Json.num "NaN", s.drop 3)
    else if startsWith "Infinity".toList s then some (Json.num "Infinity", s.drop 8)
    else if startsWith "-Infinity".toList s then some (Json.num "-Infinity", s.drop 9)
    else
      match s with
      | '"' :: t => (parseJStr t).map (fun p => (Json.str (String.mk p.1), p.2))
      | '{' :: t =>
        (match t.dropWhile isWsJ with
         | '}' :: r => some (Json.obj [], r)
         | t2 => (parseMembers fuel t2).map (fun p => (Json.obj p.1, p.2)))
      | '[' :: t =>
        (match t.dropWhile isWsJ with
         | ']' :: r => some (Json.arr [], r)
         | t2 => (parseItems fuel t2).map (fun p => (Json.arr p.1, p.2)))
      | _ => (parseNumber s).map (fun p => (Json.num (String.mk p.1), p.2))

/-- Non-empty object member list: `"key" : value` pairs separated by `,`,
terminated by `}`. -/
def parseMembers : Nat → List Char → Option (List (String × Json) × List Char)
  | 0, _ => none
  | fuel + 1, s =>
    match s with
    | '"' :: t =>
      match parseJStr t with
      | none => none
      | some (k, r1) =>
        match r1.dropWhile isWsJ with
        | ':' :: r3 =>
          match parseValue fuel r3 with
          | none => none
          | some (v, r4) =>
            match r4.dropWhile isWsJ with
            | ',' :: r6 =>
              (parseMembers fuel (r6.dropWhile isWsJ)).map
                (fun p => ((String.mk k, v) :: p.1, p.2))
            | '}' :: r6 => some ([(String.mk k, v)], r6)
            | _ => none
        | _ => none
    | _ => none

/-- Non-empty array item list: values separated by `,`, terminated by `]`. -/
def parseItems : Nat → List Char → Option (List Json × List Char)
  | 0, _ => none
  | fuel + 1, s =>
    match parseValue fuel s with
    | none => none
    | some (v, r) =>
      match r.dropWhile isWsJ with
      | ',' :: r2 => (parseItems fuel r2).map (fun p => (v :: p.1, p.2))
      | ']' :: r2 => some ([v], r2)
      | _ => none

end

/-- Embedding of Python `json.loads`: parse one value and require that only
whitespace remains (otherwise Python raises "Extra data").  Failure is
`none` where Python raises `json.JSONDecodeError`. -/
def json_loads (s : List Char) : Option Json :=
  match parseValue (2 * s.length + 4) s with
  | some (v, rest) => if (rest.dropWhile isWsJ).isEmpty then some v else none
  | none => none

/-! ## Shared character classes and Python string helpers -/

/-- The single-quote character (written by code point to keep string literals
free of quote characters). -/
def squote : Char := Char.ofNat 39

/-- Python regex `\s` over ASCII: space, tab, newline, carriage return,
vertical tab, form feed.  (Also Python's `str.strip` default set.) -/
def wsChar (c : Char) : Bool :=
  c = ' ' || c = '\t' || c = '\n' || c = '\r' || c = '\x0b' || c = '\x0c'

/-- The control-character class `[\x00-\x08\x0B\x0C\x0E-\x1F\x7F]` used by
`clean_json_string` step 1 and `repair_vlm_json` strategy 1. -/
def ctrl1 (c : Char) : Bool :=
  c.toNat ≤ 8 || c.toNat = 11 || c.toNat = 12 ||
  (14 ≤ c.toNat && c.toNat ≤ 31) || c.toNat = 127

/-- The class `[\x00-\x1F\x7F]` removed by `try_advanced_json_cleaning`
strategy 2. -/
def ctrlAll (c : Char) : Bool := c.toNat ≤ 31 || c.toNat = 127

/-- ASCII lower-casing, modelling `re.IGNORECASE` matching of ASCII
literals. -/
def lowerChar (c : Char) : Char :=
  if 'A' ≤ c && c ≤ 'Z' then Char.ofNat (c.toNat + 32) else c

/-- Substring test: does `p` occur contiguously in `s`? -/
def containsSub (p : List Char) : List Char → Bool
  | [] => p.isEmpty
  | c :: t => startsWith p (c :: t) || containsSub p t

/-- Index of the first occurrence of substring `p` in `s`. -/
def findSubIdx (p : List Char) : List Char → Option Nat
  | [] => if p.isEmpty then some 0 else none
  | c :: t =>
    if startsWith p (c :: t) then some 0 else (findSubIdx p t).map (· + 1)

/-- Python `str.find(c)`: index of the first occurrence of character `c`. -/
def pyFind (c : Char) : List Char → Option Nat
  | [] => none
  | a :: t => if a = c then some 0 else (pyFind c t).map (· + 1)

/-- Python `str.rfind(c)`: index of the last occurrence of character `c`. -/
def pyRFind (c : Char) (s : List Char) : Option Nat :=
  (pyFind c s.reverse).map (fun k => s.length - 1 - k)

/-- Python slice `s[i:j]`. -/
def sliceList (s : List Char) (i j : Nat) : List Char := (s.drop i).take (j - i)

/-- Python `str.strip()` (ASCII whitespace). -/
def pyStrip (s : List Char) : List Char :=
  ((s.dropWhile wsChar).reverse.dropWhile wsChar).reverse

/-- Python `max(xs, key=len)`: the first element of maximal length
(a later element replaces the current one only when strictly longer). -/
def pyMaxByLen : List (List Char) → Option (List Char)
  | [] => none
  | x :: xs =>
    some (xs.foldl (fun acc y => if y.length > acc.length then y else acc) x)

/-- Python truncation `t[:n] + "..." if len(t) > n else t`. -/
def pyTrunc (n : Nat) (s : List Char) : String :=
  if s.length > n then String.mk (s.take n ++ "...".toList) else String.mk s

/-! ## `clean_json_string` (src/robust_json_parser.py lines 12-44)

Each regex substitution of the source is embedded as the string transform it
denotes.  Two of the six steps are identity transforms because of Python's
replacement-template processing: in step 4 the replacement literal `'\\n'`
is the two characters backslash-`n`, which the template processor converts
back to a single newline, and in step 5 the replacement literal `'\\\\'` is
two backslashes, which the template processor converts to one backslash —
so each match is replaced by exactly the text it matched.  (Confirmed
against CPython `re`.)  They are therefore embedded as the identity and the
composition simply omits them. -/

/-- Step 2 of `clean_json_string` and strategy 2 of `repair_vlm_json`:
`re.sub(r',(\s*[}\]])', r'\1', s)` — drop a comma that is followed by
(maximal) whitespace and then `}` or `]`; scanning resumes after the
closer, so overlapping commas (`,,}`) are not all removed in one pass. -/
def removeTrailingCommasAux : Nat → List Char → List Char
  | 0, s => s
  | _, [] => []
  | fuel + 1, c :: t =>
    if c = ',' then
      let w := t.takeWhile wsChar
      match t.drop w.length with
      | d :: r =>
        if d = '}' || d = ']' then w ++ d :: removeTrailingCommasAux fuel r
        else c :: removeTrailingCommasAux fuel t
      | [] => c :: removeTrailingCommasAux fuel t
    else c :: removeTrailingCommasAux fuel t

def removeTrailingCommas (s : List Char) : List Char :=
  removeTrailingCommasAux (s.length + 1) s

/-- Lookahead `(?=.*")` of step 3 (no DOTALL): a further `"` occurs before
the next newline. -/
def quoteLaterSameLine : List Char → Bool
  | [] => false
  | c :: t => if c = '\n' then false else if c = '"' then true else quoteLaterSameLine t

/-- Step 3 of `clean_json_string`:
`re.sub(r'(?<!\\)"(?=.*")', '\\"', s)` — every `"` that is not preceded by a
backslash (in the original text) and is followed by another `"` on the same
line gets a backslash inserted before it.  Matches are single characters,
so the substitution is position-wise over the original string. -/
def escQuotesAux : Option Char → List Char → List Char
  | _, [] => []
  | prev, c :: t =>
    if c = '"' && prev ≠ some '\\' && quoteLaterSameLine t then
      '\\' :: '"' :: escQuotesAux (some c) t
    else c :: escQuotesAux (some c) t

def escQuotes (s : List Char) : List Char := escQuotesAux none s

/-- Step 4 of `clean_json_string`:
`re.sub(r"'([^']*)':", r'"\1":', s)` — a single-quoted run directly followed
by a colon becomes double-quoted; on failure at a position the scan advances
one character. -/
def singleQuoteKeysAux : Nat → List Char → List Char
  | 0, s => s
  | _, [] => []
  | fuel + 1, c :: t =>
    if c = squote then
      let content := t.takeWhile (fun a => !(a = squote))
      match t.drop content.length with
      | _ :: rest =>
        match rest with
        | ':' :: r2 => '"' :: (content ++ '"' :: ':' :: singleQuoteKeysAux fuel r2)
        | _ => c :: singleQuoteKeysAux fuel t
      | [] => c :: singleQuoteKeysAux fuel t
    else c :: singleQuoteKeysAux fuel t

def singleQuoteKeys (s : List Char) : List Char :=
  singleQuoteKeysAux (s.length + 1) s

/-- Step 7 of `clean_json_string`: keep characters with code point ≥ 32 and
newline/tab (this is what removes a stray carriage return). -/
def stripCtl2 (s : List Char) : List Char :=
  s.filter (fun c => c.toNat ≥ 32 || c = '\n' || c = '\t')

/-- `clean_json_string` (src/robust_json_parser.py): strip control
characters, drop trailing commas, escape quotes, convert single-quoted
keys; steps 5 and 6 are the identity (see above); finally keep printable
characters plus newline/tab. -/
def clean_json_string (s : List Char) : List Char :=
  stripCtl2 (singleQuoteKeys (escQuotes (removeTrailingCommas (s.filter (fun c => !(ctrl1 c))))))

/-! ## Extractors -/

/-- One pass of `re.findall(r'```json\s*(.*?)\s*```', s, re.DOTALL)` (and of
the untagged variant), parameterised by the opening literal.  At an
occurrence of the opening literal: the greedy `\s*` takes the maximal
whitespace run; the lazy group then ends before the first later occurrence
of three backticks, with the second `\s*` absorbing the whitespace directly
preceding it; if no closing backticks exist the scan resumes one character
further.  Scanning resumes after each full match. -/
def fenceScanAux (openPat : List Char) : Nat → List Char → List (List Char)
  | 0, _ => []
  | _, [] => []
  | fuel + 1, s@(_ :: tail) =>
    if startsWith openPat s then
      let rest0 := s.drop openPat.length
      let rest := rest0.dropWhile wsChar
      match findSubIdx "```".toList rest with
      | some r =>
        ((rest.take r).reverse.dropWhile wsChar).reverse ::
          fenceScanAux openPat fuel (rest.drop (r + 3))
      | none => fenceScanAux openPat fuel tail
    else fenceScanAux openPat fuel tail

def fenceScan (openPat : List Char) (s : List Char) : List (List Char) :=
  fenceScanAux openPat (s.length + 1) s

/-- `re.findall(r'\{.*\}', s, re.DOTALL)` yields at most one match: the
substring from the first `{` to the last `}` (when the latter comes after
the former); after it no `}` remains, so the scan finds nothing more. -/
def dropUntilBrace : List Char → Option (List Char)
  | [] => none
  | c :: t => if c = '{' then some (c :: t) else dropUntilBrace t

def takeUntilLastClose (s : List Char) : Option (List Char) :=
  match s.reverse.dropWhile (fun c => !(c = '}')) with
  | [] => none
  | r => some r.reverse

def bracePattern (s : List Char) : Option (List Char) :=
  (dropUntilBrace s).bind takeUntilLastClose

/-- `extract_json_from_response` (src/robust_json_parser.py lines 46-78):
try the ```json fence, then any fence, then the first-`{`-to-last-`}`
pattern, taking the longest match of the first pattern that has any and
stripping it; otherwise fall back to `find('{')` / `rfind('}')` indices. -/
def extract_json_from_response (s : List Char) : Option (List Char) :=
  match pyMaxByLen (fenceScan "```json".toList s) with
  | some m => some (pyStrip m)
  | none =>
    match pyMaxByLen (fenceScan "```".toList s) with
    | some m => some (pyStrip m)
    | none =>
      match pyMaxByLen (bracePattern s).toList with
      | some m => some (pyStrip m)
      | none =>
        match pyFind '{' s, pyRFind '}' s with
        | some i, some j =>
          if j + 1 > i then some (sliceList s i (j + 1)) else none
        | _, _ => none

/-- `extract_json_from_markdown` (src/json_repair_utils.py lines 111-133):
the two fence patterns only, longest match, stripped. -/
def extract_json_from_markdown (s : List Char) : Option (List Char) :=
  match pyMaxByLen (fenceScan "```json".toList s) with
  | some m => some (pyStrip m)
  | none =>
    match pyMaxByLen (fenceScan "```".toList s) with
    | some m => some (pyStrip m)
    | none => none

/-! ## Structural balancer and repair utilities -/

/-- `fix_incomplete_structures` (src/json_repair_utils.py lines 85-109):
count all four delimiters on the input, then append the missing `}` and
then the missing `]`. -/
def fix_incomplete_structures (s : List Char) : List Char :=
  let ob := s.count '{'
  let cb := s.count '}'
  let obr := s.count '['
  let cbr := s.count ']'
  let s1 := if ob > cb then s ++ List.replicate (ob - cb) '}' else s
  if obr > cbr then s1 ++ List.replicate (obr - cbr) ']' else s1

/-- The balancing phase of `try_advanced_json_cleaning`
(src/robust_json_parser.py lines 129-141): brace counts are taken on the
input and bracket counts on the brace-appended string (appended `}` contain
no brackets, so the two balancers agree — proved below). -/
def advancedBalance (s : List Char) : List Char :=
  let ob := s.count '{'
  let cb := s.count '}'
  let s1 := if ob > cb then s ++ List.replicate (ob - cb) '}' else s
  let obr := s1.count '['
  let cbr := s1.count ']'
  if obr > cbr then s1 ++ List.replicate (obr - cbr) ']' else s1

/-- Match attempt at the current position for
`r'"([^"]+)"\s*:\s*"([^"]*(?:\\.[^"]*)*)"'` (from `fix_unescaped_quotes`).
Both bracketed groups stop at the first `"`; once the greedy `[^"]*` stops
there the closing `"` of the pattern matches immediately and the engine
reports success, so the `(?:\\.[^"]*)*` alternation never extends the value
group (confirmed against CPython `re`).  Returns key, value and the rest of
the input after the match. -/
def fuqAttempt (s : List Char) : Option (List Char × List Char × List Char) :=
  match s with
  | '"' :: t =>
    let key := t.takeWhile (fun a => !(a = '"'))
    if key.isEmpty then none
    else
      match t.drop key.length with
      | '"' :: u =>
        (match u.dropWhile wsChar with
         | ':' :: v =>
           (match v.dropWhile wsChar with
            | '"' :: w =>
              let value := w.takeWhile (fun a => !(a = '"'))
              (match w.drop value.length with
               | '"' :: rest => some (key, value, rest)
               | _ => none)
            | _ => none)
         | _ => none)
      | _ => none
  | _ => none

/-- `fix_unescaped_quotes` (src/json_repair_utils.py lines 56-83): rewrite
every matched `"key" : "value"` pair as `"key": "value"`.  The replacement
function's quote-escaping branch requires a `"` inside the value group,
which `[^"]*` excludes, so the branch (kept here verbatim) never fires. -/
def fixUnescapedQuotesAux : Nat → List Char → List Char
  | 0, s => s
  | _, [] => []
  | fuel + 1, c :: t =>
    match fuqAttempt (c :: t) with
    | some (key, value, rest) =>
      let value2 :=
        if value.contains '"' && !(value.take 1 = ['"']) then
          value.foldr (fun a acc => if a = '"' then '\\' :: '"' :: acc else a :: acc) []
        else value
      '"' :: (key ++ '"' :: ':' :: ' ' :: '"' :: (value2 ++ '"' :: fixUnescapedQuotesAux fuel rest))
    | none => c :: fixUnescapedQuotesAux fuel t

def fix_unescaped_quotes (s : List Char) : List Char :=
  fixUnescapedQuotesAux (s.length + 1) s

/-- The repair pipeline of `repair_vlm_json` strategies 1-5
(src/json_repair_utils.py lines 29-48): strip control characters, drop
trailing commas, normalise quoted pairs, balance structures.  Strategy 5
substitutes the literals `true`/`false`/`null` by themselves and is
therefore the identity. -/
def repairStrategies (s : List Char) : List Char :=
  fix_incomplete_structures
    (fix_unescaped_quotes
      (removeTrailingCommas (s.filter (fun c => !(ctrl1 c)))))

/-- `repair_vlm_json` (src/json_repair_utils.py lines 12-54): return the
input unchanged when it already parses; otherwise run the repair pipeline
and return its output when that parses, else `None`. -/
def repair_vlm_json (s : List Char) : Option (List Char) :=
  match json_loads s with
  | some _ => some s
  | none =>
    let repaired := repairStrategies s
    match json_loads repaired with
    | some _ => some repaired
    | none => none

/-- `try_advanced_json_cleaning` (src/robust_json_parser.py lines 117-160):
balance delimiters and try to parse; on failure remove all characters in
`[\x00-\x1F\x7F]` and try again; else `None`. -/
def try_advanced_json_cleaning (s : List Char) : Option Json :=
  let advanced := advancedBalance s
  match json_loads advanced with
  | some r => some r
  | none =>
    match json_loads (advanced.filter (fun c => !(ctrlAll c))) with
    | some r => some r
    | none => none

/-! ## Partial-data extraction -/

/-- `bool(re.search(r'table|Table', s, re.IGNORECASE))`: the word "table"
occurs case-insensitively. -/
def hasTableTok (s : List Char) : Bool :=
  containsSub "table".toList (s.map lowerChar)

/-- `bool(re.search(r'figure|chart|graph|...', s, re.IGNORECASE))`. -/
def hasFigureTok (s : List Char) : Bool :=
  containsSub "figure".toList (s.map lowerChar) ||
  containsSub "chart".toList (s.map lowerChar) ||
  containsSub "graph".toList (s.map lowerChar)

/-- Is `c` one of the two quote characters of the class `["\']`? -/
def quoteChar (c : Char) : Bool := c = '"' || c = squote

/-- Match attempt at the current position for
`lit + r'["\']?\s*:\s*["\']([^"\']*)["\']'` with `re.IGNORECASE` (the
`structured_data` / `description` extraction regexes; `re.DOTALL` on one
call site is irrelevant since the pattern contains no `.`).  The optional
quote is taken when present (declining it cannot help: the following `\s*:`
cannot match a quote).  The captured group is the maximal run free of both
quote characters. -/
def kvAttempt (lit : List Char) (s : List Char) : Option (List Char) :=
  if startsWith lit (s.map lowerChar) then
    let t0 := s.drop lit.length
    let t1 := match t0 with
      | c :: r => if quoteChar c then r else t0
      | [] => t0
    match t1.dropWhile wsChar with
    | ':' :: u =>
      (match u.dropWhile wsChar with
       | q :: w =>
         if quoteChar q then
           let content := w.takeWhile (fun a => !(quoteChar a))
           match w.drop content.length with
           | q2 :: _ => if quoteChar q2 then some content else none
           | [] => none
         else none
       | [] => none)
    | _ => none
  else none

/-- `re.findall(lit-pattern, s, re.IGNORECASE)[0]`: the leftmost match's
captured group. -/
def kvScan (lit : List Char) : List Char → Option (List Char)
  | [] => none
  | c :: t =>
    match kvAttempt lit (c :: t) with
    | some cap => some cap
    | none => kvScan lit t

def structuredCapture (s : List Char) : Option (List Char) :=
  kvScan "structured_data".toList s

def descCapture (s : List Char) : Option (List Char) :=
  kvScan "description".toList s

/-- `extract_partial_data` (src/robust_json_parser.py lines 162-213):
regex-mine the raw text; synthesize one element exactly when the captured
`structured_data` is non-empty (Python truthiness) or a token test fired. -/
def extract_partial_data (s : List Char) : Json :=
  Json.obj [
    ("page_analysis", Json.obj [
      ("has_tables", Json.bool (hasTableTok s)),
      ("has_figures", Json.bool (hasFigureTok s)),
      ("total_elements",
        if hasTableTok s || hasFigureTok s then Json.num "1" else Json.num "0"),
      ("page_summary", Json.str "Partial data extraction due to JSON parsing error")]),
    ("elements", Json.arr (
      if !((structuredCapture s).getD []).isEmpty || hasTableTok s || hasFigureTok s then
        [Json.obj [
          ("type", Json.str (if hasTableTok s then "table" else "figure")),
          ("bbox", Json.arr [Json.num "0", Json.num "0", Json.num "600", Json.num "400"]),
          ("confidence", Json.num "0.5"),
          ("description", Json.str (match descCapture s with
            | some d => String.mk d
            | none => "Extracted from partial data")),
          ("content", Json.obj [
            ("structured_data", Json.str (String.mk ((structuredCapture s).getD []))),
            ("raw_text", Json.str (pyTrunc 500 s)),
            ("summary", Json.str "Extracted from partial data due to JSON parsing issues")])]]
      else []))]

/-- `extract_partial_data_from_response` (src/json_repair_utils.py lines
176-229): identical to `extract_partial_data` except for the 1000-character
truncation and the shorter content summary sentinel. -/
def extract_partial_data_from_response (s : List Char) : Json :=
  Json.obj [
    ("page_analysis", Json.obj [
      ("has_tables", Json.bool (hasTableTok s)),
      ("has_figures", Json.bool (hasFigureTok s)),
      ("total_elements",
        if hasTableTok s || hasFigureTok s then Json.num "1" else Json.num "0"),
      ("page_summary", Json.str "Partial data extraction due to JSON parsing error")]),
    ("elements", Json.arr (
      if !((structuredCapture s).getD []).isEmpty || hasTableTok s || hasFigureTok s then
        [Json.obj [
          ("type", Json.str (if hasTableTok s then "table" else "figure")),
          ("bbox", Json.arr [Json.num "0", Json.num "0", Json.num "600", Json.num "400"]),
          ("confidence", Json.num "0.5"),
          ("description", Json.str (match descCapture s with
            | some d => String.mk d
            | none => "Extracted from partial data")),
          ("content", Json.obj [
            ("structured_data", Json.str (String.mk ((structuredCapture s).getD []))),
            ("raw_text", Json.str (pyTrunc 1000 s)),
            ("summary", Json.str "Extracted from partial data")])]]
      else []))]

/-! ## Orchestrators -/

/-- `create_error_fallback` (src/robust_json_parser.py lines 215-234). -/
def create_error_fallback (msg : String) : Json :=
  Json.obj [
    ("page_analysis", Json.obj [
      ("has_tables", Json.bool false),
      ("has_figures", Json.bool false),
      ("total_elements", Json.num "0"),
      ("page_summary", Json.str ("Error: " ++ msg))]),
    ("elements", Json.arr [])]

/-- `parse_vlm_json_response` (src/robust_json_parser.py lines 80-115).
`if not json_str:` is Python truthiness: both `None` and the empty
candidate take the error-fallback branch. -/
def parse_vlm_json_response (s : List Char) : Json :=
  match extract_json_from_response s with
  | none => create_error_fallback "No JSON found in response"
  | some json_str =>
    if json_str.isEmpty then create_error_fallback "No JSON found in response"
    else
      match json_loads (clean_json_string json_str) with
      | some r => r
      | none =>
        match try_advanced_json_cleaning (clean_json_string json_str) with
        | some r => r
        | none => extract_partial_data s

/-- Strategy 2 and 3 of `parse_with_fallback` (src/json_repair_utils.py
lines 158-174): the first-`{`-to-last-`}` slice through
`repair_vlm_json`, else partial extraction. -/
def parseWithFallbackStrat2 (s : List Char) : Json :=
  match pyFind '{' s, pyRFind '}' s with
  | some i, some j =>
    if j + 1 > i then
      match repair_vlm_json (sliceList s i (j + 1)) with
      | some repaired =>
        (match json_loads repaired with
         | some r => r
         | none => extract_partial_data_from_response s)
      | none => extract_partial_data_from_response s
    else extract_partial_data_from_response s
  | _, _ => extract_partial_data_from_response s

/-- `parse_with_fallback` (src/json_repair_utils.py lines 135-174).
`if json_str:` skips strategy 1 for a `None` or empty markdown
candidate. -/
def parse_with_fallback (s : List Char) : Json :=
  match extract_json_from_markdown s with
  | some json_str =>
    if json_str.isEmpty then parseWithFallbackStrat2 s
    else
      match repair_vlm_json json_str with
      | some repaired =>
        (match json_loads repaired with
         | some r => r
         | none => parseWithFallbackStrat2 s)
      | none => parseWithFallbackStrat2 s
  | none => parseWithFallbackStrat2 s

/-! ## Projections used to state the claims -/

/-- Look a key up in an embedded JSON object's field list (first match). -/
def lookupKey : List (String × Json) → String → Option Json
  | [], _ => none
  | (k, v) :: rest, key => if k = key then some v else lookupKey rest key

def getKey (j : Json) (key : String) : Option Json :=
  match j with
  | Json.obj fs => lookupKey fs key
  | _ => none

def getKey2 (j : Json) (k1 k2 : String) : Option Json :=
  (getKey j k1).bind (fun v => getKey v k2)

/-- The string content of `j.k1.k2`, when that path holds a string. -/
def strAt (j : Json) (k1 k2 : String) : Option String :=
  match getKey2 j k1 k2 with
  | some (Json.str t) => some t
  | _ => none

/-- Number of entries of the `elements` field, when it is an array. -/
def elemsCount (j : Json) : Option Nat :=
  match getKey j "elements" with
  | some (Json.arr xs) => some xs.length
  | _ => none

/-- The `type` field of the first element, when present. -/
def firstElemType (j : Json) : Option Json :=
  match getKey j "elements" with
  | some (Json.arr (e :: _)) => getKey e "type"
  | _ => none

/-- The record shape claimed for the engine's output: a `page_analysis`
object carrying the four analysis fields, and an `elements` array. -/
def hasSchemaShape (j : Json) : Bool :=
  match getKey j "page_analysis", getKey j "elements" with
  | some (Json.obj pa), some (Json.arr _) =>
    (lookupKey pa "has_tables").isSome && (lookupKey pa "has_figures").isSome &&
    (lookupKey pa "total_elements").isSome && (lookupKey pa "page_summary").isSome
  | _, _ => false

/-! ## Concrete inputs used by the claims (braces written as `\x7b`/`\x7d`) -/

/-- A minimal JSON string satisfying the DetectionResult schema. -/
def jminL : List Char :=
  "\x7b\"page_analysis\":\x7b\"has_tables\":false,\"has_figures\":false,\"total_elements\":0,\"page_summary\":\"s\"\x7d,\"elements\":[]\x7d".toList

/-- Raw text whose `structured_data` regex matches with an empty capture and
which contains none of the table/figure tokens. -/
def sdEmptyInput : List Char := "structured_data:\"\"".toList

/-- Raw text with a non-empty `structured_data` capture and none of the
table/figure tokens. -/
def sdOnlyInput : List Char := "structured_data:\"x\"".toList

/-- There is a `{` with a `}` strictly after it. -/
def hasBracePair : List Char → Bool
  | [] => false
  | c :: t => if c = '{' then t.contains '}' else hasBracePair t

/-! ## Theorems -/

theorem count_append_replicate_ne (s : List Char) (n : Nat) (a b : Char)
    (h : ¬ b = a) : (s ++ List.replicate n b).count a = s.count a := by
  simp [List.count_append, List.count_replicate, h]

/-- C5: `fix_incomplete_structures` (and the inlined balancer of
`try_advanced_json_cleaning`) appends exactly `max(0, opens - closes)`
closing braces and then exactly `max(0, opens - closes)` closing brackets
after the unmodified input, and leaves a string with zero net imbalance per
bracket type unchanged. -/
theorem balancer_appends_exact_deficit (s : List Char) :
    (fix_incomplete_structures s =
        (s ++ List.replicate (s.count '{' - s.count '}') '}')
          ++ List.replicate (s.count '[' - s.count ']') ']' ∧
      advancedBalance s =
        (s ++ List.replicate (s.count '{' - s.count '}') '}')
          ++ List.replicate (s.count '[' - s.count ']') ']') ∧
    (s.count '{' = s.count '}' → s.count '[' = s.count ']' →
      fix_incomplete_structures s = s ∧ advancedBalance s = s) := by
  have key : fix_incomplete_structures s =
      (s ++ List.replicate (s.count '{' - s.count '}') '}')
        ++ List.replicate (s.count '[' - s.count ']') ']' := by
    simp only [fix_incomplete_structures]
    by_cases hb : s.count '{' > s.count '}'
    · rw [if_pos hb]
      by_cases hk : s.count '[' > s.count ']'
      · rw [if_pos hk]
      · rw [if_neg hk]
        have hk0 : s.count '[' - s.count ']' = 0 := Nat.sub_eq_zero_of_le (by omega)
        simp [hk0]
    · rw [if_neg hb]
      have hb0 : s.count '{' - s.count '}' = 0 := Nat.sub_eq_zero_of_le (by omega)
      by_cases hk : s.count '[' > s.count ']'
      · rw [if_pos hk]
        simp [hb0]
      · rw [if_neg hk]
        have hk0 : s.count '[' - s.count ']' = 0 := Nat.sub_eq_zero_of_le (by omega)
        simp [hb0, hk0]
  have keyAdv : advancedBalance s =
      (s ++ List.replicate (s.count '{' - s.count '}') '}')
        ++ List.replicate (s.count '[' - s.count ']') ']' := by
    simp only [advancedBalance]
    by_cases hb : s.count '{' > s.count '}'
    · rw [if_pos hb, count_append_replicate_ne s _ '[' '}' (by decide),
        count_append_replicate_ne s _ ']' '}' (by decide)]
      by_cases hk : s.count '[' > s.count ']'
      · rw [if_pos hk]
      · rw [if_neg hk]
        have hk0 : s.count '[' - s.count ']' = 0 := Nat.sub_eq_zero_of_le (by omega)
        simp [hk0]
    · rw [if_neg hb]
      have hb0 : s.count '{' - s.count '}' = 0 := Nat.sub_eq_zero_of_le (by omega)
      by_cases hk : s.count '[' > s.count ']'
      · rw [if_pos hk]
        simp [hb0]
      · rw [if_neg hk]
        have hk0 : s.count '[' - s.count ']' = 0 := Nat.sub_eq_zero_of_le (by omega)
        simp [hb0, hk0]
  refine ⟨⟨key, keyAdv⟩, fun hbr hbk => ?_⟩
  have h1 : s.count '{' - s.count '}' = 0 := by omega
  have h2 : s.count '[' - s.count ']' = 0 := by omega
  rw [key, keyAdv, h1, h2]
  simp

theorem balancer_appends_exact_deficit_witness :
    fix_incomplete_structures ("a[]\x7b\x7db".toList) = "a[]\x7b\x7db".toList ∧
    advancedBalance ("a[]\x7b\x7db".toList) = "a[]\x7b\x7db".toList :=
  (balancer_appends_exact_deficit ("a[]\x7b\x7db".toList)).2 (by decide) (by decide)

/-- C10: `repair_vlm_json` returns its input unchanged whenever the input
already parses, and returns `None` exactly when the input does not parse
and the repaired text still does not parse. -/
theorem repair_vlm_json_contract (s : List Char) :
    ((json_loads s).isSome = true → repair_vlm_json s = some s) ∧
    (repair_vlm_json s = none ↔
      json_loads s = none ∧ json_loads (repairStrategies s) = none) := by
  unfold repair_vlm_json
  cases h : json_loads s with
  | some v => simp [h]
  | none =>
    cases h2 : json_loads (repairStrategies s) with
    | some v => simp [h2]
    | none => simp [h2]

theorem repair_vlm_json_contract_witness :
    repair_vlm_json ("\x7b\x7d".toList) = some ("\x7b\x7d".toList) :=
  (repair_vlm_json_contract ("\x7b\x7d".toList)).1 (by decide)

/-- C3 (counterexample): `clean_json_string` is not idempotent — on `,,}`
the first pass removes only the second comma (the trailing-comma regex
consumes the closer it matched), the second pass removes the other one. -/
theorem clean_json_string_not_idempotent :
    clean_json_string (clean_json_string (",,\x7d".toList)) ≠
      clean_json_string (",,\x7d".toList) := by decide

/-- C3 (amended): the repairer `repair_vlm_json` is idempotent on success —
its output always parses, so a second application returns it unchanged. -/
theorem repair_vlm_json_idempotent (x r : List Char)
    (h : repair_vlm_json x = some r) : repair_vlm_json r = some r := by
  unfold repair_vlm_json at h
  cases hx : json_loads x with
  | some v =>
    rw [hx] at h
    simp at h
    subst h
    unfold repair_vlm_json
    rw [hx]
  | none =>
    rw [hx] at h
    simp only [] at h
    cases h2 : json_loads (repairStrategies x) with
    | some v =>
      rw [h2] at h
      simp at h
      subst h
      unfold repair_vlm_json
      rw [h2]
    | none =>
      rw [h2] at h
      simp at h

theorem repair_vlm_json_idempotent_witness :
    repair_vlm_json ("[1]".toList) = some ("[1]".toList) :=
  repair_vlm_json_idempotent ("[1,]".toList) ("[1]".toList) (by decide)

/-- C4 (code bug): the empty JSON string literal `""` is valid JSON, yet
`clean_json_string` rewrites it to `\""`, which no longer parses — the
quote-escaping substitution escapes every quote that has a later quote on
the same line, not just unescaped quotes inside string content. -/
theorem clean_json_string_breaks_valid_json :
    (json_loads ("\"\"".toList)).isSome = true ∧
    clean_json_string ("\"\"".toList) = ['\\', '"', '"'] ∧
    (json_loads (clean_json_string ("\"\"".toList))).isSome = false := by decide

/-- C6 (counterexample): the input `{` contains a `{` but the Extractor
returns no candidate (no pattern matches and `rfind('}')` fails). -/
theorem extract_none_despite_brace :
    ('{' ∈ ("\x7b".toList)) ∧
      extract_json_from_response ("\x7b".toList) = none := by decide

theorem dropWhile_close_ne_nil (l : List Char) (h : '}' ∈ l) :
    l.dropWhile (fun c => !(c = '}')) ≠ [] := by
  intro hnil
  have := List.dropWhile_eq_nil_iff.mp hnil '}' h
  simp at this

theorem bracePattern_isSome (s : List Char) (h : hasBracePair s = true) :
    (bracePattern s).isSome = true := by
  induction s with
  | nil => simp [hasBracePair] at h
  | cons c t ih =>
    unfold hasBracePair at h
    by_cases hc : c = '{'
    · rw [if_pos hc] at h
      have hmem : '}' ∈ c :: t := List.mem_cons_of_mem _ (by simpa using h)
      have hne := dropWhile_close_ne_nil (c :: t).reverse
        (by rw [List.mem_reverse]; exact hmem)
      unfold bracePattern dropUntilBrace
      rw [if_pos hc]
      cases hX : (c :: t).reverse.dropWhile (fun c => !(c = '}')) with
      | nil => exact absurd hX hne
      | cons a b =>
        simp only [Option.bind]
        unfold takeUntilLastClose
        rw [hX]
        simp
    · rw [if_neg hc] at h
      unfold bracePattern dropUntilBrace
      rw [if_neg hc]
      simpa [bracePattern] using ih h

/-- C6 (amended): the Extractor returns some candidate for every input that
contains a `{` with a `}` strictly after it (the fence tiers may also
produce a candidate without any brace). -/
theorem extract_some_of_brace_pair (s : List Char)
    (h : hasBracePair s = true) :
    (extract_json_from_response s).isSome = true := by
  unfold extract_json_from_response
  cases h1 : pyMaxByLen (fenceScan "```json".toList s) with
  | some m => simp
  | none =>
    cases h2 : pyMaxByLen (fenceScan "```".toList s) with
    | some m => simp
    | none =>
      have h3 := bracePattern_isSome s h
      cases hb : bracePattern s with
      | none => rw [hb] at h3; simp at h3
      | some m => simp [hb, pyMaxByLen]

theorem extract_some_of_brace_pair_witness :
    (extract_json_from_response ("x\x7by\x7dz".toList)).isSome = true :=
  extract_some_of_brace_pair ("x\x7by\x7dz".toList) (by decide)

theorem hasSchemaShape_create_error_fallback (msg : String) :
    hasSchemaShape (create_error_fallback msg) = true := rfl

theorem hasSchemaShape_extract_partial_data (s : List Char) :
    hasSchemaShape (extract_partial_data s) = true := rfl

theorem hasSchemaShape_extract_partial_data_from_response (s : List Char) :
    hasSchemaShape (extract_partial_data_from_response s) = true := rfl

theorem try_advanced_loads (s : List Char) (r : Json)
    (h : try_advanced_json_cleaning s = some r) :
    ∃ c, json_loads c = some r := by
  unfold try_advanced_json_cleaning at h
  simp only [] at h
  cases h1 : json_loads (advancedBalance s) with
  | some v =>
    rw [h1] at h
    simp at h
    subst h
    exact ⟨_, h1⟩
  | none =>
    rw [h1] at h
    simp only [] at h
    cases h2 : json_loads ((advancedBalance s).filter (fun c => !(ctrlAll c))) with
    | some v =>
      rw [h2] at h
      simp at h
      subst h
      exact ⟨_, h2⟩
    | none =>
      rw [h2] at h
      simp at h

/-- C1 (counterexample): on the input `{}` — which the Extractor finds and
`json.loads` parses — both entry points return the bare parsed value `{}`,
which contains neither a `page_analysis` object nor an `elements`
sequence. -/
theorem parse_entry_may_lack_schema_keys :
    hasSchemaShape (parse_vlm_json_response ("\x7b\x7d".toList)) = false ∧
    hasSchemaShape (parse_with_fallback ("\x7b\x7d".toList)) = false := by decide

theorem strat2_shape_or_loads (s : List Char) :
    hasSchemaShape (parseWithFallbackStrat2 s) = true ∨
    ∃ c, json_loads c = some (parseWithFallbackStrat2 s) := by
  unfold parseWithFallbackStrat2
  split
  · split
    · split
      · split
        · next r hr => exact Or.inr ⟨_, hr⟩
        · exact Or.inl (hasSchemaShape_extract_partial_data_from_response s)
      · exact Or.inl (hasSchemaShape_extract_partial_data_from_response s)
    · exact Or.inl (hasSchemaShape_extract_partial_data_from_response s)
  · exact Or.inl (hasSchemaShape_extract_partial_data_from_response s)

/-- C1 (amended): both entry points are total functions of the input text,
and the result record always carries the claimed `page_analysis` /
`elements` shape except when the extracted candidate itself parses as
JSON, in which case that parsed value is returned unchanged (and may lack
the fields, e.g. for the input `{}`). -/
theorem parse_entry_total_shape :
    (∀ s, hasSchemaShape (parse_vlm_json_response s) = true ∨
      ∃ c, json_loads c = some (parse_vlm_json_response s)) ∧
    (∀ s, hasSchemaShape (parse_with_fallback s) = true ∨
      ∃ c, json_loads c = some (parse_with_fallback s)) := by
  constructor
  · intro s
    unfold parse_vlm_json_response
    split
    · exact Or.inl (hasSchemaShape_create_error_fallback _)
    · split
      · exact Or.inl (hasSchemaShape_create_error_fallback _)
      · split
        · next r hr => exact Or.inr ⟨_, hr⟩
        · split
          · next r hr => exact Or.inr (try_advanced_loads _ _ hr)
          · exact Or.inl (hasSchemaShape_extract_partial_data s)
  · intro s
    unfold parse_with_fallback
    split
    · split
      · exact strat2_shape_or_loads s
      · split
        · split
          · next r hr => exact Or.inr ⟨_, hr⟩
          · exact strat2_shape_or_loads s
        · exact strat2_shape_or_loads s
    · exact strat2_shape_or_loads s

/-- C8 (counterexample): for the empty input, `parse_vlm_json_response`
does not go through the Partial-Data Extractor — it returns the error
fallback whose summary is `Error: No JSON found in response`, not the
partial-recovery sentinel. -/
theorem empty_input_error_not_partial_sentinel :
    strAt (parse_vlm_json_response []) "page_analysis" "page_summary" =
      some "Error: No JSON found in response" ∧
    ¬ strAt (parse_vlm_json_response []) "page_analysis" "page_summary" =
      some "Partial data extraction due to JSON parsing error" := by decide

/-- C8 (amended): when the Extractor finds no candidate,
`parse_vlm_json_response` returns the error-fallback record (summary
`Error: No JSON found in response`); `parse_with_fallback` instead reaches
the Partial-Data Extractor.  On the empty string both entry points yield
empty `elements` and `has_tables = has_figures = false`, with the
partial-recovery sentinel on the `parse_with_fallback` side. -/
theorem no_candidate_fallback :
    (∀ s, extract_json_from_response s = none →
      parse_vlm_json_response s = create_error_fallback "No JSON found in response") ∧
    parse_with_fallback [] = extract_partial_data_from_response [] ∧
    elemsCount (parse_with_fallback []) = some 0 ∧
    getKey2 (parse_with_fallback []) "page_analysis" "has_tables" = some (Json.bool false) ∧
    getKey2 (parse_with_fallback []) "page_analysis" "has_figures" = some (Json.bool false) ∧
    strAt (parse_with_fallback []) "page_analysis" "page_summary" =
      some "Partial data extraction due to JSON parsing error" ∧
    elemsCount (parse_vlm_json_response []) = some 0 ∧
    getKey2 (parse_vlm_json_response []) "page_analysis" "has_tables" = some (Json.bool false) ∧
    getKey2 (parse_vlm_json_response []) "page_analysis" "has_figures" = some (Json.bool false) := by
  refine ⟨fun s h => ?_, rfl, rfl, rfl, rfl, rfl, rfl, rfl, rfl⟩
  unfold parse_vlm_json_response
  rw [h]

theorem no_candidate_fallback_witness :
    parse_vlm_json_response [] = create_error_fallback "No JSON found in response" :=
  no_candidate_fallback.1 [] (by decide)

set_option maxRecDepth 100000 in
/-- C2 (code bug): a minimal valid DetectionResult JSON string does not
round-trip through `parse_vlm_json_response`: `clean_json_string` escapes
its quotes, parsing fails, and the partial-extraction record (whose
summary is the partial sentinel) is returned instead of the directly
parsed record (whose summary is `s`).  `parse_with_fallback`, whose
repairer returns parseable input unchanged, does round-trip on it. -/
theorem round_trip_broken_by_clean :
    (json_loads jminL).isSome = true ∧
    strAt (parse_vlm_json_response jminL) "page_analysis" "page_summary" =
      some "Partial data extraction due to JSON parsing error" ∧
    ((json_loads jminL).bind (fun v => strAt v "page_analysis" "page_summary")) =
      some "s" ∧
    elemsCount (parse_vlm_json_response jminL) = some 1 ∧
    json_loads jminL = some (parse_with_fallback jminL) := by
  refine ⟨by decide, by decide, by decide, by decide, rfl⟩

/-- C7 (counterexample): on `structured_data:""` the structured_data regex
matches (capturing the empty string) and no token test fires, yet no
element is synthesized — the code tests Python truthiness of the captured
value, not whether the regex matched. -/
theorem partial_no_element_on_empty_capture :
    (structuredCapture sdEmptyInput).isSome = true ∧
    hasTableTok sdEmptyInput = false ∧
    hasFigureTok sdEmptyInput = false ∧
    elemsCount (extract_partial_data sdEmptyInput) = some 0 ∧
    elemsCount (extract_partial_data_from_response sdEmptyInput) = some 0 := by
  decide

/-- C7 (amended): whenever a token test fires or the structured_data regex
captures a non-empty value, both Partial-Data Extractors synthesize exactly
one element with `type` table-if-has_tables-else-figure, the default bbox
`[0, 0, 600, 400]`, confidence `0.5`, and the captured description or the
sentinel `Extracted from partial data`. -/
theorem partial_element_fields (s : List Char)
    (h : hasTableTok s = true ∨ hasFigureTok s = true ∨
      ((structuredCapture s).getD []).isEmpty = false) :
    ∃ e1 e2,
      getKey (extract_partial_data s) "elements" = some (Json.arr [e1]) ∧
      getKey e1 "type" =
        some (Json.str (if hasTableTok s then "table" else "figure")) ∧
      getKey e1 "bbox" =
        some (Json.arr [Json.num "0", Json.num "0", Json.num "600", Json.num "400"]) ∧
      getKey e1 "confidence" = some (Json.num "0.5") ∧
      getKey e1 "description" = some (Json.str (match descCapture s with
        | some d => String.mk d
        | none => "Extracted from partial data")) ∧
      getKey (extract_partial_data_from_response s) "elements" = some (Json.arr [e2]) ∧
      getKey e2 "type" =
        some (Json.str (if hasTableTok s then "table" else "figure")) ∧
      getKey e2 "bbox" =
        some (Json.arr [Json.num "0", Json.num "0", Json.num "600", Json.num "400"]) ∧
      getKey e2 "confidence" = some (Json.num "0.5") ∧
      getKey e2 "description" = some (Json.str (match descCapture s with
        | some d => String.mk d
        | none => "Extracted from partial data")) := by
  have hcond : (!((structuredCapture s).getD []).isEmpty
      || hasTableTok s || hasFigureTok s) = true := by
    rcases h with h | h | h <;> simp [h]
  unfold extract_partial_data extract_partial_data_from_response
  rw [hcond]
  exact ⟨_, _, rfl, rfl, rfl, rfl, rfl, rfl, rfl, rfl, rfl, rfl⟩

theorem partial_element_fields_witness :
    ∃ e1 e2,
      getKey (extract_partial_data ("Table".toList)) "elements" = some (Json.arr [e1]) ∧
      getKey e1 "confidence" = some (Json.num "0.5") ∧
      getKey (extract_partial_data_from_response ("Table".toList)) "elements" =
        some (Json.arr [e2]) ∧
      getKey e2 "confidence" = some (Json.num "0.5") := by
  obtain ⟨e1, e2, h1, _, _, h4, _, h6, _, _, h9, _⟩ :=
    partial_element_fields ("Table".toList) (Or.inl (by decide))
  exact ⟨e1, e2, h1, h4, h6, h9⟩

/-- C9: both Partial-Data Extractors append an element exactly when the
structured_data capture is non-empty or a token test fired (so never more
than one element), while `total_elements` is 1 exactly when a token test
fired; on `structured_data:"x"` this yields `total_elements = 0` together
with exactly one element of kind figure. -/
theorem partial_element_count_spec :
    (∀ s,
      elemsCount (extract_partial_data s) =
        some (if !((structuredCapture s).getD []).isEmpty
          || hasTableTok s || hasFigureTok s then 1 else 0) ∧
      elemsCount (extract_partial_data_from_response s) =
        some (if !((structuredCapture s).getD []).isEmpty
          || hasTableTok s || hasFigureTok s then 1 else 0) ∧
      getKey2 (extract_partial_data s) "page_analysis" "total_elements" =
        some (if hasTableTok s || hasFigureTok s then Json.num "1" else Json.num "0")) ∧
    (hasTableTok sdOnlyInput = false ∧
     hasFigureTok sdOnlyInput = false ∧
     (structuredCapture sdOnlyInput).isSome = true ∧
     getKey2 (extract_partial_data sdOnlyInput) "page_analysis" "total_elements" =
       some (Json.num "0") ∧
     elemsCount (extract_partial_data sdOnlyInput) = some 1 ∧
     firstElemType (extract_partial_data sdOnlyInput) = some (Json.str "figure")) := by
  constructor
  · intro s
    refine ⟨?_, ?_, ?_⟩
    · unfold extract_partial_data
      cases hcond : (!((structuredCapture s).getD []).isEmpty
          || hasTableTok s || hasFigureTok s) <;> simp [hcond, elemsCount, getKey, lookupKey]
    · unfold extract_partial_data_from_response
      cases hcond : (!((structuredCapture s).getD []).isEmpty
          || hasTableTok s || hasFigureTok s) <;> simp [hcond, elemsCount, getKey, lookupKey]
    · unfold extract_partial_data
      cases hcond : (hasTableTok s || hasFigureTok s) <;>
        simp [hcond, getKey2, getKey, lookupKey]
  · refine ⟨by decide, by decide, by decide, rfl, by decide, rfl⟩
